import Mathlib

/-!
Shallow embedding of the slow-wifi diagnostic tools:
the continuous LAN monitor (jitter-check.py) and the experiment
orchestrator (network_optimizer_test.py).  RTT measurements are modelled
as rationals, probe outcomes as Option ℚ (some rtt for a parsed
round-trip time, none for a lost probe), and I/O effects as explicit
action traces.
-/

namespace SlowWifi

/-- Banker's rounding to an integer, as Python's builtin round. -/
def pyRound (q : ℚ) : ℤ :=
  let f := ⌊q⌋
  let r := q - f
  if r < 1/2 then f
  else if 1/2 < r then f + 1
  else if f % 2 = 0 then f else f + 1

/-- Python round(q, d): round half to even at d decimal places. -/
def roundTo (d : ℕ) (q : ℚ) : ℚ :=
  (pyRound (q * (10 : ℚ) ^ d) : ℚ) / (10 : ℚ) ^ d

/-- Python fixed-point formatting f-string spec .df applied to q. -/
def formatFixed (d : ℕ) (q : ℚ) : String :=
  let n : ℤ := pyRound (q * (10 : ℚ) ^ d)
  let a : ℕ := n.natAbs
  let ip : ℕ := a / 10 ^ d
  let fp : ℕ := a % 10 ^ d
  let fpStr := toString fp
  let fpPad := String.mk (List.replicate (d - fpStr.length) '0') ++ fpStr
  (if n < 0 then "-" else "") ++ toString ip ++ (if d = 0 then "" else "." ++ fpPad)

/-- Python abs on a rational, written so that it evaluates by kernel
reduction. -/
def ratAbs (q : ℚ) : ℚ := if q < 0 then -q else q

/-- statistics.mean in the source (only ever applied to nonempty lists). -/
def mean (l : List ℚ) : ℚ := l.sum / (l.length : ℚ)

/-- Python max over a nonempty list (0 as an unused default for []). -/
def listMax : List ℚ → ℚ
  | [] => 0
  | x :: xs => xs.foldl max x

/-- Python min over a nonempty list (0 as an unused default for []). -/
def listMin : List ℚ → ℚ
  | [] => 0
  | x :: xs => xs.foldl min x

/-! ## Continuous monitor: jitter-check.py -/

/-- SPIKE_THRESHOLD = 15.0 in jitter-check.py. -/
def SPIKE_THRESHOLD : ℚ := 15

/-- INTERVAL = 0.2 in jitter-check.py. -/
def INTERVAL : ℚ := 1/5

/-- Per-sample status tag printed by analyze_lan. -/
inductive Status where
  | OK
  | HighJitter
  | LagSpike
  | PacketLoss
deriving DecidableEq, Repr

/-- Jitter of a successful probe given the tracked previous successful
RTT: abs(rtt - prev_rtt) when prev_rtt is not None, else the initial 0.0
(jitter-check.py lines 87, 95-97). -/
def jitterOf (prev : Option ℚ) (rtt : ℚ) : ℚ :=
  match prev with
  | Option.some p => ratAbs (rtt - p)
  | Option.none => 0

/-- Status of a successful probe (jitter-check.py lines 100-110):
spike when rtt > SPIKE_THRESHOLD, else high jitter when jitter > 5.0,
else OK. -/
def classifyRtt (prev : Option ℚ) (rtt : ℚ) : Status :=
  if SPIKE_THRESHOLD < rtt then Status.LagSpike
  else if 5 < jitterOf prev rtt then Status.HighJitter
  else Status.OK

/-- The running aggregates of analyze_lan (its stats dict). -/
structure MonStats where
  sent : ℕ
  received : ℕ
  rtts : List ℚ
  jitter_values : List ℚ
  spikes : ℕ
  high_jitter_events : ℕ
deriving DecidableEq, Repr

/-- Full loop state of analyze_lan: aggregates, the tracked previous
successful RTT, and the ordered (status, jitter) rows it has logged. -/
structure MonState where
  stats : MonStats
  prev : Option ℚ
  samples : List (Status × ℚ)
deriving DecidableEq, Repr

/-- One iteration of the analyze_lan while-loop on one probe outcome
(jitter-check.py lines 84-119). -/
def monStep (st : MonState) (o : Option ℚ) : MonState :=
  match o with
  | Option.none =>
      { stats := { st.stats with sent := st.stats.sent + 1 },
        prev := Option.none,
        samples := st.samples ++ [(Status.PacketLoss, 0)] }
  | Option.some r =>
      let j := jitterOf st.prev r
      let s := classifyRtt st.prev r
      { stats :=
          { sent := st.stats.sent + 1,
            received := st.stats.received + 1,
            rtts := st.stats.rtts ++ [r],
            jitter_values :=
              st.stats.jitter_values ++
                (match st.prev with
                 | Option.some _ => [j]
                 | Option.none => []),
            spikes := st.stats.spikes + (if s = Status.LagSpike then 1 else 0),
            high_jitter_events :=
              st.stats.high_jitter_events + (if s = Status.HighJitter then 1 else 0) },
        prev := Option.some r,
        samples := st.samples ++ [(s, j)] }

/-- Initial state of analyze_lan (lines 69-74). -/
def monInit : MonState :=
  { stats := { sent := 0, received := 0, rtts := [], jitter_values := [],
               spikes := 0, high_jitter_events := 0 },
    prev := Option.none,
    samples := [] }

/-- analyze_lan's probe loop run over a finite sequence of probe
outcomes (the loop body executed once per outcome, then interrupted). -/
def runMonitor (os : List (Option ℚ)) : MonState :=
  os.foldl monStep monInit

/-- The status column produced by analyze_lan for a probe sequence. -/
def monitorStatuses (os : List (Option ℚ)) : List Status :=
  (runMonitor os).samples.map Prod.fst

/-- The jitter column produced by analyze_lan for a probe sequence. -/
def monitorJitters (os : List (Option ℚ)) : List ℚ :=
  (runMonitor os).samples.map Prod.snd

/-- The machine-readable JSON summary block of analyze_lan. -/
structure MonSummary where
  target : String
  duration_seconds : ℚ
  total_packets : ℕ
  packet_loss_pct : ℚ
  avg_latency_ms : ℚ
  max_latency_ms : ℚ
  avg_jitter_ms : ℚ
  stability_score : String
  diagnosis : List String
deriving DecidableEq, Repr

/-- Summary emission on KeyboardInterrupt (jitter-check.py lines
124-165): when no probe was sent the function closes the log and
returns with no summary; otherwise it builds the JSON summary. -/
def monitorSummary (target : String) (os : List (Option ℚ)) : Option MonSummary :=
  let st := (runMonitor os).stats
  if st.sent = 0 then Option.none
  else
    let loss_pct := (((st.sent : ℚ) - (st.received : ℚ)) / (st.sent : ℚ)) * 100
    let avg_rtt := if st.rtts = [] then 0 else mean st.rtts
    let max_rtt := if st.rtts = [] then 0 else listMax st.rtts
    let avg_jitter := if st.jitter_values = [] then 0 else mean st.jitter_values
    Option.some
      { target := target,
        duration_seconds := (st.sent : ℚ) * INTERVAL,
        total_packets := st.sent,
        packet_loss_pct := roundTo 2 loss_pct,
        avg_latency_ms := roundTo 2 avg_rtt,
        max_latency_ms := roundTo 2 max_rtt,
        avg_jitter_ms := roundTo 2 avg_jitter,
        stability_score := if 0 < loss_pct ∨ 5 < avg_jitter then "POOR" else "GOOD",
        diagnosis :=
          (if 0 < loss_pct then
            ["Packet Loss detected (Wi-Fi interference or hardware fault)"] else [])
          ++ (if 4 < avg_jitter then
            ["High Jitter (Mouse floatiness imminent)"] else [])
          ++ (if (st.sent : ℚ) * (1/20) < (st.spikes : ℚ) then
            ["Frequent Latency Spikes (Background process interruption)"] else []) }

/-! ## Experiment orchestrator: network_optimizer_test.py -/

/-- PINGS_PER_TEST = 200. -/
def PINGS_PER_TEST : ℕ := 200

/-- The TestResult dataclass. -/
structure TestResult where
  setting_name : String
  setting_value : String
  packets_sent : ℕ
  packets_lost : ℕ
  avg_latency_ms : ℚ
  max_latency_ms : ℚ
  min_latency_ms : ℚ
  avg_jitter_ms : ℚ
  spike_count : ℕ
  spike_percentage : ℚ
  raw_rtts : List ℚ
deriving DecidableEq, Repr

/-- parse_sysctl: last colon-separated field, stripped. -/
def parse_sysctl (output : String) : String :=
  if output.contains ':' then ((output.splitOn ":").getLastD "").trim
  else output.trim

/-- The SettingState dataclass (the parse_current field is modelled by
its concrete value parse_sysctl for both registry entries). -/
structure SettingState where
  name : String
  get_cmd : List String
  enable_cmd : List String
  disable_cmd : List String
  parse_current : String → String
  requires_sudo : Bool := true
  original_value : Option String := Option.none

/-- The SETTINGS registry (network_optimizer_test.py lines 121-136). -/
def SETTINGS : List SettingState :=
  [ { name := "TCP Delayed ACK",
      get_cmd := ["sysctl", "net.inet.tcp.delayed_ack"],
      enable_cmd := ["sudo", "sysctl", "-w", "net.inet.tcp.delayed_ack=3"],
      disable_cmd := ["sudo", "sysctl", "-w", "net.inet.tcp.delayed_ack=0"],
      parse_current := parse_sysctl },
    { name := "TCP Send/Recv Autotuning",
      get_cmd := ["sysctl", "net.inet.tcp.doautorcvbuf"],
      enable_cmd := ["sudo", "sysctl", "-w", "net.inet.tcp.doautorcvbuf=1"],
      disable_cmd := ["sudo", "sysctl", "-w", "net.inet.tcp.doautorcvbuf=0"],
      parse_current := parse_sysctl } ]

/-- The names of the registered settings. -/
def settingNames : List String := SETTINGS.map SettingState.name

/-- Jitter list of run_ping_test: abs differences of consecutive
entries of the successful-RTT list (line 220). -/
def jitterList (rtts : List ℚ) : List ℚ :=
  List.zipWith (fun a b => ratAbs (b - a)) rtts rtts.tail

/-- run_ping_test (lines 194-255) as a function of the sequence of
probe outcomes of its ping loop: a some rtt outcome appends to rtts,
a none outcome increments lost; statistics are then computed from
rtts alone, with a zero-filled result when every probe was lost. -/
def run_ping_test (label : String) (setting_value : String)
    (outcomes : List (Option ℚ)) : TestResult :=
  let rtts : List ℚ := outcomes.filterMap id
  let lost : ℕ := (outcomes.filter (fun o => o.isNone)).length
  if rtts = [] then
    { setting_name := label, setting_value := setting_value,
      packets_sent := PINGS_PER_TEST, packets_lost := lost,
      avg_latency_ms := 0, max_latency_ms := 0, min_latency_ms := 0,
      avg_jitter_ms := 0, spike_count := 0, spike_percentage := 0,
      raw_rtts := [] }
  else
    let jitter_values := jitterList rtts
    let spike_count := (rtts.filter (fun r => SPIKE_THRESHOLD < r)).length
    { setting_name := label, setting_value := setting_value,
      packets_sent := PINGS_PER_TEST, packets_lost := lost,
      avg_latency_ms := roundTo 2 (mean rtts),
      max_latency_ms := roundTo 2 (listMax rtts),
      min_latency_ms := roundTo 2 (listMin rtts),
      avg_jitter_ms := if jitter_values = [] then 0 else roundTo 2 (mean jitter_values),
      spike_count := spike_count,
      spike_percentage := roundTo 1 ((spike_count : ℚ) / (rtts.length : ℚ) * 100),
      raw_rtts := rtts }

/-! ### generate_report: analysis and recommendations -/

/-- A recommendations entry of the report (lines 383-388). -/
structure Recom where
  setting : String
  action : String
  spike_reduction : String
  jitter_change : String
deriving DecidableEq, Repr

/-- One recommendation record built from the baseline and one
non-baseline result. -/
def mkRecom (baseline r : TestResult) : Recom :=
  { setting := r.setting_name,
    action := "Set to " ++ r.setting_value,
    spike_reduction := formatFixed 1 (baseline.spike_percentage - r.spike_percentage) ++ "%",
    jitter_change := formatFixed 2 (baseline.avg_jitter_ms - r.avg_jitter_ms) ++ "ms" }

/-- The recommendations loop over results[1:] (lines 380-388). -/
def genRecsLoop (baseline : TestResult) : List TestResult → List Recom
  | [] => []
  | r :: rest =>
      (if 5 < baseline.spike_percentage - r.spike_percentage
       then [mkRecom baseline r] else [])
      ++ genRecsLoop baseline rest

/-- The recommendations list generate_report produces: empty unless
some result has positive average latency (the valid_results guard at
line 364-365), then one entry per non-baseline result whose spike
percentage is more than 5 points below the baseline's. -/
def genRecommendations (rs : List TestResult) : List Recom :=
  if rs.filter (fun r => 0 < r.avg_latency_ms) = [] then []
  else
    match rs with
    | [] => []
    | baseline :: rest => genRecsLoop baseline rest

/-- Python min(l, key) over a nonempty list: the first element whose
key attains the minimum (later elements replace the current best only
when strictly smaller). -/
def minBy (key : TestResult → ℚ) : List TestResult → Option TestResult
  | [] => Option.none
  | x :: xs =>
      match minBy key xs with
      | Option.none => Option.some x
      | Option.some b => if key b < key x then Option.some b else Option.some x

/-- The report's analysis block (lines 372-376). -/
structure Analysis where
  best_avg_latency : String × ℚ
  best_spike_rate : String × ℚ
  best_jitter : String × ℚ
deriving DecidableEq, Repr

/-- generate_report's analysis block: absent when no result has
positive average latency, else the min-by-key selections over
valid_results (lines 364-376). -/
def genAnalysis (rs : List TestResult) : Option Analysis :=
  let valid := rs.filter (fun r => 0 < r.avg_latency_ms)
  match minBy (fun r => r.avg_latency_ms) valid,
        minBy (fun r => r.spike_percentage) valid,
        minBy (fun r => r.avg_jitter_ms) valid with
  | Option.some a, Option.some b, Option.some c =>
      Option.some
        { best_avg_latency := (a.setting_name, a.avg_latency_ms),
          best_spike_rate := (b.setting_name, b.spike_percentage),
          best_jitter := (c.setting_name, c.avg_jitter_ms) }
  | _, _, _ => Option.none

/-- b is the first element of l attaining the minimal key. -/
def isFirstMin (key : TestResult → ℚ) (l : List TestResult) (b : TestResult) : Prop :=
  ∃ l₁ l₂, l = l₁ ++ b :: l₂ ∧ (∀ x ∈ l₁, key b < key x) ∧ (∀ x ∈ l₂, key b ≤ key x)

/-! ### Control-flow trace of run_all_tests and main -/

/-- Observable actions of the orchestrator. -/
inductive Act where
  | save
  | restore
  | applySet (name : String) (enable : Bool)
  | ping (label value : String)
  | report
  | exitCode (n : ℕ)
deriving DecidableEq, Repr

/-- How a run can be cut short: not at all; by an exception raised
inside save_original_states; after k completed steps of the try-block
of run_all_tests; or inside generate_report.  The Bool records whether
the exception is a KeyboardInterrupt (true) or another error. -/
inductive Fault where
  | ok
  | duringSave (isInt : Bool)
  | inBody (k : ℕ) (isInt : Bool)
  | duringReport (isInt : Bool)
deriving DecidableEq, Repr

/-- The try-block of run_all_tests (lines 287-331) as an action list,
parameterised by whether blueutil is installed. -/
def tryBody (hasBlueutil : Bool) : List Act :=
  [Act.ping "Baseline" "current",
   Act.applySet "TCP Delayed ACK" false,
   Act.ping "TCP Delayed ACK" "disabled",
   Act.applySet "TCP Delayed ACK" true,
   Act.applySet "AWDL" false,
   Act.ping "AWDL" "disabled",
   Act.applySet "AWDL" true]
  ++ (if hasBlueutil then
        [Act.applySet "Bluetooth" false,
         Act.ping "Bluetooth" "disabled",
         Act.applySet "Bluetooth" true]
      else [])
  ++ [Act.applySet "TCP Delayed ACK" false,
      Act.applySet "AWDL" false]
  ++ (if hasBlueutil then [Act.applySet "Bluetooth" false] else [])
  ++ [Act.ping "All Optimizations" "enabled"]

/-- run_all_tests (lines 275-338): save_original_states, then the
try-block, with restore_original_states in a finally clause, then
generate_report.  Returns the executed action trace together with a
pending-exception flag and its KeyboardInterrupt flag. -/
def runAllTestsTrace (hasBlueutil : Bool) : Fault → List Act × Bool × Bool
  | Fault.ok =>
      (Act.save :: tryBody hasBlueutil ++ [Act.restore, Act.report], false, false)
  | Fault.duringSave i => ([], true, i)
  | Fault.inBody k i =>
      (Act.save :: (tryBody hasBlueutil).take k ++ [Act.restore], true, i)
  | Fault.duringReport i =>
      (Act.save :: tryBody hasBlueutil ++ [Act.restore], true, i)

/-- main (lines 421-439): check_sudo exits with status 1 when the
privilege check fails; otherwise run_all_tests runs, and a
KeyboardInterrupt escaping it is caught, restore_original_states is
called again, and the process exits with status 1. -/
def mainTrace (sudoOk hasBlueutil : Bool) (f : Fault) : List Act :=
  if sudoOk = false then [Act.exitCode 1]
  else
    let t := runAllTestsTrace hasBlueutil f
    if t.2.1 && t.2.2 then t.1 ++ [Act.restore, Act.exitCode 1] else t.1

/-! ### State Guard: restore_original_states -/

/-- The host settings mutated by the script. -/
structure HostState where
  delayed_ack : String
  doautorcvbuf : String
  awdl_up : Bool
  bluetooth_on : Bool
deriving DecidableEq, Repr

/-- The captured original values: the original_value fields of the two
registry entries plus the AWDL and Bluetooth entries of the
original_states dict (each absent when never captured). -/
structure Captured where
  delayed_ack : Option String
  doautorcvbuf : Option String
  awdl : Option String
  bluetooth : Option String
deriving DecidableEq, Repr

/-- restore_original_states (lines 168-192): reapply each captured
sysctl value; bring awdl0 up when its captured state was on; set
Bluetooth power to the captured state when blueutil is installed. -/
def restore_original_states (hasBlueutil : Bool) (c : Captured)
    (s : HostState) : HostState :=
  let s1 :=
    match c.delayed_ack with
    | Option.some v => { s with delayed_ack := v }
    | Option.none => s
  let s2 :=
    match c.doautorcvbuf with
    | Option.some v => { s1 with doautorcvbuf := v }
    | Option.none => s1
  let s3 := if c.awdl = Option.some "on" then { s2 with awdl_up := true } else s2
  if hasBlueutil then { s3 with bluetooth_on := c.bluetooth = Option.some "on" } else s3

/-- The baseline of the worked report example: spike percentage 30,
average jitter 10 ms. -/
def exampleBaseline : TestResult :=
  { setting_name := "Baseline", setting_value := "current", packets_sent := 200,
    packets_lost := 0, avg_latency_ms := 10, max_latency_ms := 50,
    min_latency_ms := 1, avg_jitter_ms := 10, spike_count := 60,
    spike_percentage := 30, raw_rtts := [10] }

/-- The settingX experiment of the worked report example: spike
percentage 5, average jitter 2 ms. -/
def exampleSettingX : TestResult :=
  { setting_name := "settingX", setting_value := "disabled", packets_sent := 200,
    packets_lost := 0, avg_latency_ms := 4, max_latency_ms := 20,
    min_latency_ms := 1, avg_jitter_ms := 2, spike_count := 10,
    spike_percentage := 5, raw_rtts := [4] }

/-- A single experiment result with positive average latency, used to
instantiate the best-selection theorem. -/
def exampleValid : TestResult :=
  { setting_name := "Baseline", setting_value := "current", packets_sent := 200,
    packets_lost := 0, avg_latency_ms := 3, max_latency_ms := 6,
    min_latency_ms := 1, avg_jitter_ms := 2, spike_count := 0,
    spike_percentage := 1, raw_rtts := [3] }

/-! ## Helper lemmas -/

theorem foldl_monStep_sent :
    ∀ (os : List (Option ℚ)) (st : MonState),
      ((os.foldl monStep st).stats.sent) = st.stats.sent + os.length := by
  intro os
  induction os with
  | nil => intro st; simp
  | cons o os ih =>
      intro st
      rw [List.foldl_cons, ih (monStep st o)]
      cases o <;> simp [monStep] <;> omega

theorem runMonitor_sent (os : List (Option ℚ)) :
    (runMonitor os).stats.sent = os.length := by
  simpa [runMonitor, monInit] using foldl_monStep_sent os monInit

theorem length_filter_isNone_add_filterMap (os : List (Option ℚ)) :
    (os.filter (fun o => o.isNone)).length + (os.filterMap id).length = os.length := by
  induction os with
  | nil => rfl
  | cons o os ih =>
      cases o <;> simp [List.filter_cons, List.filterMap_cons] <;> omega

theorem filterMap_id_map_some (l : List ℚ) :
    ((l.map Option.some).filterMap id) = l := by
  induction l with
  | nil => rfl
  | cons x xs ih => simp [ih]

theorem genRecsLoop_eq_filterMap (b : TestResult) (l : List TestResult) :
    genRecsLoop b l
      = (l.filter (fun r => 5 < b.spike_percentage - r.spike_percentage)).map (mkRecom b) := by
  induction l with
  | nil => rfl
  | cons r rest ih =>
      by_cases h : 5 < b.spike_percentage - r.spike_percentage <;>
        simp [genRecsLoop, List.filter_cons, h, ih]

theorem run_ping_test_sent (label value : String) (os : List (Option ℚ)) :
    (run_ping_test label value os).packets_sent = PINGS_PER_TEST := by
  by_cases h : os.filterMap id = [] <;> simp [run_ping_test, h]

theorem run_ping_test_lost (label value : String) (os : List (Option ℚ)) :
    (run_ping_test label value os).packets_lost
      = (os.filter (fun o => o.isNone)).length := by
  by_cases h : os.filterMap id = [] <;> simp [run_ping_test, h]

theorem run_ping_test_raw (label value : String) (os : List (Option ℚ)) :
    (run_ping_test label value os).raw_rtts = os.filterMap id := by
  by_cases h : os.filterMap id = [] <;> simp [run_ping_test, h]

theorem minBy_ne_none (key : TestResult → ℚ) (x : TestResult) (xs : List TestResult) :
    minBy key (x :: xs) ≠ Option.none := by
  cases h : minBy key xs with
  | none => simp [minBy, h]
  | some b =>
      simp only [minBy, h]
      split <;> simp

theorem minBy_eq_none_iff (key : TestResult → ℚ) (l : List TestResult) :
    minBy key l = Option.none ↔ l = [] := by
  cases l with
  | nil => simp [minBy]
  | cons x xs => simp [minBy_ne_none key x xs]

theorem minBy_isFirstMin (key : TestResult → ℚ) :
    ∀ (l : List TestResult) (b : TestResult),
      minBy key l = Option.some b → isFirstMin key l b := by
  intro l
  induction l with
  | nil => intro b h; simp [minBy] at h
  | cons x xs ih =>
      intro b h
      cases hm : minBy key xs with
      | none =>
          have hxs : xs = [] := (minBy_eq_none_iff key xs).mp hm
          subst hxs
          simp [minBy] at h
          subst h
          exact ⟨[], [], rfl, by simp, by simp⟩
      | some c =>
          simp only [minBy, hm] at h
          rcases ih c hm with ⟨m₁, m₂, hdec, hlt, hle⟩
          by_cases hc : key c < key x
          · rw [if_pos hc] at h
            have hcb : c = b := Option.some.inj h
            subst hcb
            refine ⟨x :: m₁, m₂, by rw [hdec]; rfl, ?_, hle⟩
            intro y hy
            rcases List.mem_cons.mp hy with hy1 | hy2
            · rw [hy1]; exact hc
            · exact hlt y hy2
          · rw [if_neg hc] at h
            have hxb : x = b := Option.some.inj h
            subst hxb
            refine ⟨[], xs, rfl, by simp, ?_⟩
            intro y hy
            have hxc : key x ≤ key c := le_of_not_lt hc
            rw [hdec] at hy
            rcases List.mem_append.mp hy with hy1 | hy2
            · exact le_of_lt (lt_of_le_of_lt hxc (hlt y hy1))
            · rcases List.mem_cons.mp hy2 with hy3 | hy4
              · rw [hy3]; exact hxc
              · exact le_trans hxc (hle y hy4)

/-! ## Theorems for the claims -/

/-- C2: with spike threshold 15.0 and jitter threshold 5.0, the
successful RTT sequence [5, 6, 40, 41, 7] is classified
[OK, OK, LagSpike, LagSpike, HighJitter]; an RTT above the spike
threshold is tagged LagSpike regardless of its jitter, and an RTT at
or below the spike threshold with jitter above 5.0 is tagged
HighJitter. -/
theorem monitor_classifier_sequence :
    monitorStatuses
        [Option.some 5, Option.some 6, Option.some 40, Option.some 41, Option.some 7]
      = [Status.OK, Status.OK, Status.LagSpike, Status.LagSpike, Status.HighJitter]
    ∧ (∀ (p : Option ℚ) (r : ℚ), SPIKE_THRESHOLD < r → classifyRtt p r = Status.LagSpike)
    ∧ (∀ (p : Option ℚ) (r : ℚ), r ≤ SPIKE_THRESHOLD → 5 < jitterOf p r →
        classifyRtt p r = Status.HighJitter) := by
  refine ⟨?_, ?_, ?_⟩
  · norm_num [monitorStatuses, runMonitor, monStep, monInit, classifyRtt,
      jitterOf, ratAbs, SPIKE_THRESHOLD]
  · intro p r h
    unfold classifyRtt
    rw [if_pos h]
  · intro p r h1 h2
    unfold classifyRtt
    rw [if_neg (not_lt.mpr h1), if_pos h2]

/-- Witness for C2: a spiking RTT whose jitter is also above threshold
is a LagSpike, and a non-spiking RTT with jitter 34 is HighJitter. -/
theorem monitor_classifier_sequence_witness :
    classifyRtt (Option.some 6) 40 = Status.LagSpike
    ∧ classifyRtt (Option.some 41) 7 = Status.HighJitter :=
  ⟨monitor_classifier_sequence.2.1 (Option.some 6) 40 (by decide),
   monitor_classifier_sequence.2.2 (Option.some 41) 7 (by norm_num [SPIKE_THRESHOLD])
     (by norm_num [jitterOf, ratAbs])⟩

/-- C3 counterexample: on the probe sequence [5 ms, loss, 12 ms] the
code gives the post-loss success a jitter of 0 and status OK, not the
jitter |12 − 5| = 7 (which would make it HighJitter) that computing
against the pre-loss success would give. -/
theorem monitor_loss_cex :
    monitorJitters [Option.some 5, Option.none, Option.some 12] = [0, 0, 0]
    ∧ monitorStatuses [Option.some 5, Option.none, Option.some 12]
        = [Status.OK, Status.PacketLoss, Status.OK]
    ∧ ¬ monitorJitters [Option.some 5, Option.none, Option.some 12] = [0, 0, 7] := by
  decide

/-- C3 amended: a failed probe yields status PacketLoss with jitter 0
and resets the tracked previous successful RTT to none, so the first
successful sample after a Loss always has jitter 0 — it is not compared
against the success that preceded the loss. -/
theorem monitor_loss_resets_jitter :
    ∀ (os : List (Option ℚ)) (r : ℚ),
      (runMonitor (os ++ [Option.none])).samples
          = (runMonitor os).samples ++ [(Status.PacketLoss, 0)]
      ∧ (runMonitor (os ++ [Option.none])).prev = Option.none
      ∧ monitorJitters (os ++ [Option.none, Option.some r])
          = monitorJitters (os ++ [Option.none]) ++ [0] := by
  intro os r
  have h1 : runMonitor (os ++ [Option.none]) = monStep (runMonitor os) Option.none := by
    simp [runMonitor, List.foldl_append]
  have h2 : runMonitor (os ++ [Option.none, Option.some r])
      = monStep (monStep (runMonitor os) Option.none) (Option.some r) := by
    simp [runMonitor, List.foldl_append]
  refine ⟨?_, ?_, ?_⟩
  · rw [h1]; rfl
  · rw [h1]; rfl
  · simp [monitorJitters, h1, h2, monStep, jitterOf]

/-- C8: the continuous monitor emits its machine-readable summary
object exactly when at least one probe was sent: cancelled after zero
probes, the summary path is skipped entirely. -/
theorem monitor_zero_probes_no_summary :
    ∀ (target : String) (os : List (Option ℚ)),
      monitorSummary target os = Option.none ↔ os = [] := by
  intro t os
  have hs := runMonitor_sent os
  unfold monitorSummary
  by_cases h : (runMonitor os).stats.sent = 0
  · rw [hs] at h
    have hos : os = [] := List.length_eq_zero.mp h
    simp [hos, runMonitor_sent]
  · rw [hs] at h
    have hos : ¬ os = [] := fun hc => h (by simp [hc])
    simp [hos, runMonitor_sent, h]

/-- C9: restore_original_states is idempotent on the host settings:
for any fixed captured state, applying it twice equals applying it
once. -/
theorem restore_idempotent :
    ∀ (hasBlueutil : Bool) (c : Captured) (s : HostState),
      restore_original_states hasBlueutil c (restore_original_states hasBlueutil c s)
        = restore_original_states hasBlueutil c s := by
  intro hb c s
  rcases c with ⟨da, db, aw, bt⟩
  cases da <;> cases db <;> cases hb <;>
    by_cases h : aw = Option.some "on" <;>
      simp [restore_original_states, h]

/-- C7: when the up-front sudo check fails, the process exits with
status 1 and save_original_states is never invoked. -/
theorem sudo_failure_exits_before_save :
    ∀ (hasBlueutil : Bool) (f : Fault),
      mainTrace false hasBlueutil f = [Act.exitCode 1]
      ∧ Act.save ∉ mainTrace false hasBlueutil f := by
  intro hb f
  constructor <;> simp [mainTrace]

/-- C1: on every run of main — normal completion, an unhandled error,
or a KeyboardInterrupt at any point — if save_original_states was
executed then restore_original_states is executed before the run
terminates. -/
theorem restore_on_every_exit :
    ∀ (sudoOk hasBlueutil : Bool) (f : Fault),
      Act.save ∈ mainTrace sudoOk hasBlueutil f →
      Act.restore ∈ mainTrace sudoOk hasBlueutil f := by
  intro so hb f hsave
  cases so
  · simp [mainTrace] at hsave
  · cases f with
    | ok => simp [mainTrace, runAllTestsTrace]
    | duringSave i =>
        cases i <;> simp [mainTrace, runAllTestsTrace] at hsave ⊢
    | inBody k i =>
        cases i <;> simp [mainTrace, runAllTestsTrace]
    | duringReport i =>
        cases i <;> simp [mainTrace, runAllTestsTrace]

/-- Witness for C1: a KeyboardInterrupt after two steps of the
experiment battery still yields a trace that saved and restored. -/
theorem restore_on_every_exit_witness :
    Act.save ∈ mainTrace true true (Fault.inBody 2 true)
    ∧ Act.restore ∈ mainTrace true true (Fault.inBody 2 true) :=
  ⟨by decide, restore_on_every_exit true true (Fault.inBody 2 true) (by decide)⟩

/-- C4 counterexample: "TCP Send/Recv Autotuning" is in the settings
registry, yet no experiment of the battery ever disables it — neither
with blueutil installed nor without. -/
theorem battery_skips_autotuning :
    "TCP Send/Recv Autotuning" ∈ settingNames
    ∧ Act.applySet "TCP Send/Recv Autotuning" false ∉ mainTrace true true Fault.ok
    ∧ Act.applySet "TCP Send/Recv Autotuning" false ∉ mainTrace true false Fault.ok := by
  decide

/-- C4 amended: the battery runs strictly sequentially in a fixed
order — baseline, then single-setting experiments for TCP Delayed ACK,
AWDL, and (when blueutil is installed) Bluetooth, each re-enabled
before the next, then a combined experiment disabling those same
settings simultaneously, then restore_original_states; the registered
setting TCP Send/Recv Autotuning is never disabled. -/
theorem battery_fixed_order :
    mainTrace true true Fault.ok =
      [Act.save,
       Act.ping "Baseline" "current",
       Act.applySet "TCP Delayed ACK" false,
       Act.ping "TCP Delayed ACK" "disabled",
       Act.applySet "TCP Delayed ACK" true,
       Act.applySet "AWDL" false,
       Act.ping "AWDL" "disabled",
       Act.applySet "AWDL" true,
       Act.applySet "Bluetooth" false,
       Act.ping "Bluetooth" "disabled",
       Act.applySet "Bluetooth" true,
       Act.applySet "TCP Delayed ACK" false,
       Act.applySet "AWDL" false,
       Act.applySet "Bluetooth" false,
       Act.ping "All Optimizations" "enabled",
       Act.restore, Act.report]
    ∧ mainTrace true false Fault.ok =
      [Act.save,
       Act.ping "Baseline" "current",
       Act.applySet "TCP Delayed ACK" false,
       Act.ping "TCP Delayed ACK" "disabled",
       Act.applySet "TCP Delayed ACK" true,
       Act.applySet "AWDL" false,
       Act.ping "AWDL" "disabled",
       Act.applySet "AWDL" true,
       Act.applySet "TCP Delayed ACK" false,
       Act.applySet "AWDL" false,
       Act.ping "All Optimizations" "enabled",
       Act.restore, Act.report] := by
  decide

/-- C5: within generate_report's valid-results guard, a
recommendation is emitted for a non-baseline experiment exactly when
baseline.spike_percentage minus its spike_percentage exceeds 5, and it
carries the setting name, the value to set, the reduction formatted to
one decimal place, and the jitter delta; in particular the worked
example (baseline spike 30 / jitter 10 versus settingX spike 5 /
jitter 2) yields exactly one recommendation, for settingX, with spike
reduction "25.0%". -/
theorem recommendation_rule :
    (∀ (baseline : TestResult) (rest : List TestResult),
        (baseline :: rest).filter (fun r => 0 < r.avg_latency_ms) ≠ [] →
        genRecommendations (baseline :: rest)
          = (rest.filter (fun r => 5 < baseline.spike_percentage - r.spike_percentage)).map
              (mkRecom baseline))
    ∧ genRecommendations [exampleBaseline, exampleSettingX]
        = [{ setting := "settingX", action := "Set to disabled",
             spike_reduction := "25.0%", jitter_change := "8.00ms" }] := by
  have hgen : ∀ (baseline : TestResult) (rest : List TestResult),
      (baseline :: rest).filter (fun r => 0 < r.avg_latency_ms) ≠ [] →
      genRecommendations (baseline :: rest)
        = (rest.filter (fun r => 5 < baseline.spike_percentage - r.spike_percentage)).map
            (mkRecom baseline) := by
    intro baseline rest hvalid
    simp only [genRecommendations, if_neg hvalid]
    exact genRecsLoop_eq_filterMap baseline rest
  refine ⟨hgen, ?_⟩
  rw [hgen exampleBaseline [exampleSettingX] (by decide)]
  have hfil : ([exampleSettingX].filter
      (fun r => 5 < exampleBaseline.spike_percentage - r.spike_percentage))
      = [exampleSettingX] := by
    norm_num [exampleBaseline, exampleSettingX]
  have h25 : formatFixed 1 (exampleBaseline.spike_percentage
      - exampleSettingX.spike_percentage) = "25.0" := by
    norm_num [exampleBaseline, exampleSettingX, formatFixed, pyRound]
    rfl
  have h8 : formatFixed 2 (exampleBaseline.avg_jitter_ms
      - exampleSettingX.avg_jitter_ms) = "8.00" := by
    norm_num [exampleBaseline, exampleSettingX, formatFixed, pyRound]
    rfl
  rw [hfil]
  simp only [List.map_cons, List.map_nil, mkRecom]
  rw [h25, h8]
  rfl

/-- Witness for C5: the recommendation equation applied to the worked
example, with the valid-results guard discharged. -/
theorem recommendation_rule_witness :
    genRecommendations [exampleBaseline, exampleSettingX]
      = ([exampleSettingX].filter
          (fun r => 5 < exampleBaseline.spike_percentage - r.spike_percentage)).map
          (mkRecom exampleBaseline) :=
  recommendation_rule.1 exampleBaseline [exampleSettingX] (by decide)

/-- C6 counterexample: an experiment whose single probe succeeded with
an RTT of 0 ms has a successful probe, yet generate_report's analysis
block excludes it (its rounded average latency is not positive), so no
best_* field is produced at all — the selection pool is not "all
experiments with at least one successful probe". -/
theorem best_selection_cex :
    (run_ping_test "AWDL" "disabled" [Option.some 0]).raw_rtts ≠ []
    ∧ genAnalysis [run_ping_test "AWDL" "disabled" [Option.some 0]] = Option.none := by
  have hfm : List.filterMap id [Option.some (0 : ℚ)] = [0] := by decide
  have hR : run_ping_test "AWDL" "disabled" [Option.some 0]
      = { setting_name := "AWDL", setting_value := "disabled", packets_sent := 200,
          packets_lost := 0, avg_latency_ms := 0, max_latency_ms := 0,
          min_latency_ms := 0, avg_jitter_ms := 0, spike_count := 0,
          spike_percentage := 0, raw_rtts := [0] } := by
    norm_num [run_ping_test, hfm, mean, listMax, listMin, jitterList,
      roundTo, pyRound, SPIKE_THRESHOLD, PINGS_PER_TEST, List.filter_cons]
  constructor
  · rw [hR]
    simp
  · rw [hR]
    norm_num [genAnalysis, minBy]

/-- C6 amended: the best_avg_latency, best_spike_rate and best_jitter
fields select, among exactly the experiments whose (rounded) average
latency is strictly positive, the first experiment in sequence order
attaining the minimum of avg latency, spike percentage, and avg jitter
respectively; the analysis block is absent exactly when no experiment
qualifies. -/
theorem best_selection_rule :
    ∀ rs : List TestResult,
      (genAnalysis rs = Option.none ↔ rs.filter (fun r => 0 < r.avg_latency_ms) = [])
      ∧ ∀ A : Analysis, genAnalysis rs = Option.some A →
          (∃ b, isFirstMin (fun r => r.avg_latency_ms)
                (rs.filter (fun r => 0 < r.avg_latency_ms)) b
              ∧ A.best_avg_latency = (b.setting_name, b.avg_latency_ms))
          ∧ (∃ b, isFirstMin (fun r => r.spike_percentage)
                (rs.filter (fun r => 0 < r.avg_latency_ms)) b
              ∧ A.best_spike_rate = (b.setting_name, b.spike_percentage))
          ∧ (∃ b, isFirstMin (fun r => r.avg_jitter_ms)
                (rs.filter (fun r => 0 < r.avg_latency_ms)) b
              ∧ A.best_jitter = (b.setting_name, b.avg_jitter_ms)) := by
  intro rs
  by_cases hv : rs.filter (fun r => 0 < r.avg_latency_ms) = []
  · constructor
    · simp [genAnalysis, hv, minBy]
    · intro A hA
      exfalso
      simp [genAnalysis, hv, minBy] at hA
  · obtain ⟨a, ha⟩ : ∃ a, minBy (fun r => r.avg_latency_ms)
        (rs.filter (fun r => 0 < r.avg_latency_ms)) = Option.some a := by
      cases h : minBy (fun r => r.avg_latency_ms)
          (rs.filter (fun r => 0 < r.avg_latency_ms)) with
      | none => exact absurd ((minBy_eq_none_iff _ _).mp h) hv
      | some a => exact ⟨a, rfl⟩
    obtain ⟨b, hb⟩ : ∃ b, minBy (fun r => r.spike_percentage)
        (rs.filter (fun r => 0 < r.avg_latency_ms)) = Option.some b := by
      cases h : minBy (fun r => r.spike_percentage)
          (rs.filter (fun r => 0 < r.avg_latency_ms)) with
      | none => exact absurd ((minBy_eq_none_iff _ _).mp h) hv
      | some b => exact ⟨b, rfl⟩
    obtain ⟨c, hc⟩ : ∃ c, minBy (fun r => r.avg_jitter_ms)
        (rs.filter (fun r => 0 < r.avg_latency_ms)) = Option.some c := by
      cases h : minBy (fun r => r.avg_jitter_ms)
          (rs.filter (fun r => 0 < r.avg_latency_ms)) with
      | none => exact absurd ((minBy_eq_none_iff _ _).mp h) hv
      | some c => exact ⟨c, rfl⟩
    constructor
    · simp [genAnalysis, ha, hb, hc, hv]
    · intro A hA
      simp only [genAnalysis, ha, hb, hc] at hA
      have hAeq : A = { best_avg_latency := (a.setting_name, a.avg_latency_ms),
                        best_spike_rate := (b.setting_name, b.spike_percentage),
                        best_jitter := (c.setting_name, c.avg_jitter_ms) } :=
        (Option.some.inj hA).symm
      subst hAeq
      exact ⟨⟨a, minBy_isFirstMin _ _ _ ha, rfl⟩,
             ⟨b, minBy_isFirstMin _ _ _ hb, rfl⟩,
             ⟨c, minBy_isFirstMin _ _ _ hc, rfl⟩⟩

/-- Witness for C6: the best-selection theorem instantiated at a
single qualifying experiment. -/
theorem best_selection_rule_witness :
    (∃ b, isFirstMin (fun r => r.avg_latency_ms)
          ([exampleValid].filter (fun r => 0 < r.avg_latency_ms)) b
        ∧ (Analysis.mk ("Baseline", 3) ("Baseline", 1) ("Baseline", 2)).best_avg_latency
            = (b.setting_name, b.avg_latency_ms))
    ∧ (∃ b, isFirstMin (fun r => r.spike_percentage)
          ([exampleValid].filter (fun r => 0 < r.avg_latency_ms)) b
        ∧ (Analysis.mk ("Baseline", 3) ("Baseline", 1) ("Baseline", 2)).best_spike_rate
            = (b.setting_name, b.spike_percentage))
    ∧ (∃ b, isFirstMin (fun r => r.avg_jitter_ms)
          ([exampleValid].filter (fun r => 0 < r.avg_latency_ms)) b
        ∧ (Analysis.mk ("Baseline", 3) ("Baseline", 1) ("Baseline", 2)).best_jitter
            = (b.setting_name, b.avg_jitter_ms)) :=
  (best_selection_rule [exampleValid]).2
    (Analysis.mk ("Baseline", 3) ("Baseline", 1) ("Baseline", 2)) (by decide)

/-- C10: run_ping_test is total and never divides by zero: its
packets_sent is always the configured batch size; when the outcome
sequence has that length, packets_lost plus the number of recorded
RTTs equals packets_sent; with zero successful probes every statistic
is 0 and raw_rtts is empty; dropping the interleaved losses from the
outcome sequence changes neither raw_rtts nor the average jitter
(jitter is over consecutive successful RTTs only); and the spike
percentage is computed over the successful-probe count. -/
theorem run_ping_test_props :
    ∀ (label value : String) (os : List (Option ℚ)) (R : TestResult),
      R = run_ping_test label value os →
      (R.packets_sent = PINGS_PER_TEST
      ∧ (os.length = PINGS_PER_TEST →
          R.packets_lost + R.raw_rtts.length = R.packets_sent)
      ∧ (os.filterMap id = [] →
          R.avg_latency_ms = 0 ∧ R.max_latency_ms = 0 ∧ R.min_latency_ms = 0
          ∧ R.avg_jitter_ms = 0 ∧ R.spike_count = 0 ∧ R.spike_percentage = 0
          ∧ R.raw_rtts = [])
      ∧ (run_ping_test label value ((os.filterMap id).map Option.some)).avg_jitter_ms
          = R.avg_jitter_ms
      ∧ (run_ping_test label value ((os.filterMap id).map Option.some)).raw_rtts
          = R.raw_rtts
      ∧ (R.raw_rtts ≠ [] →
          R.spike_percentage
            = roundTo 1 ((R.spike_count : ℚ) / (R.raw_rtts.length : ℚ) * 100))) := by
  intro label value os R hR
  subst hR
  have hcount := length_filter_isNone_add_filterMap os
  have e : ((os.filterMap id).map Option.some).filterMap id = os.filterMap id :=
    filterMap_id_map_some _
  refine ⟨?_, ?_, ?_, ?_, ?_, ?_⟩
  · exact run_ping_test_sent label value os
  · intro hlen
    rw [run_ping_test_sent, run_ping_test_lost, run_ping_test_raw, ← hlen]
    exact hcount
  · intro h
    simp [run_ping_test, h]
  · by_cases h : os.filterMap id = [] <;> simp [run_ping_test, e, h]
  · by_cases h : os.filterMap id = [] <;> simp [run_ping_test, e, h]
  · intro h
    by_cases hz : os.filterMap id = []
    · exact absurd (by simp [run_ping_test, hz]) h
    · simp [run_ping_test, hz]

/-- Witness for C10: the batch-size accounting at a full 200-outcome
sequence, the zero-success case at two losses, and the spike formula
at a two-success sequence with one spike. -/
theorem run_ping_test_props_witness :
    ((run_ping_test "Baseline" "current" (List.replicate 200 (Option.some (5 : ℚ)))).packets_lost
        + (run_ping_test "Baseline" "current" (List.replicate 200 (Option.some (5 : ℚ)))).raw_rtts.length
        = (run_ping_test "Baseline" "current" (List.replicate 200 (Option.some (5 : ℚ)))).packets_sent)
    ∧ (run_ping_test "AWDL" "disabled" [Option.none, Option.none]).raw_rtts = []
    ∧ (run_ping_test "AWDL" "disabled" [Option.some 40, Option.some 5]).spike_percentage
        = roundTo 1
            (((run_ping_test "AWDL" "disabled" [Option.some 40, Option.some 5]).spike_count : ℚ)
              / ((run_ping_test "AWDL" "disabled" [Option.some 40, Option.some 5]).raw_rtts.length : ℚ)
              * 100) :=
  ⟨(run_ping_test_props "Baseline" "current" (List.replicate 200 (Option.some (5 : ℚ)))
      _ rfl).2.1 (by rw [List.length_replicate, PINGS_PER_TEST]),
   ((run_ping_test_props "AWDL" "disabled" [Option.none, Option.none] _ rfl).2.2.1
      (by decide)).2.2.2.2.2.2,
   (run_ping_test_props "AWDL" "disabled" [Option.some 40, Option.some 5] _ rfl).2.2.2.2.2
      (by rw [run_ping_test_raw]; decide)⟩

end SlowWifi
